import Mathlib

/-!
Shallow embedding of the BusTub-style buffer pool manager
(`src/buffer/buffer_pool_manager.cpp`) and LRU replacer
(`src/buffer/lru_replacer.cpp`).

Machine integers are modelled by `Int`/`Nat`; the page table
(`std::unordered_map<page_id_t, frame_id_t>`) by a duplicate-free
association list; the free list and the replacer's victim queue by
`List`; the replacer's membership set (`std::unordered_set`) by a list
used only through membership, insertion and erasure.  Calls into the
disk manager, and lock acquire/release, are recorded in an event
trace so that claims about which external calls an operation issues
(and about lock balance) can be stated.
-/

namespace BPMModel

/-- Type `page_id_t` is a signed integer; `INVALID_PAGE_ID = -1`. -/
abbrev PageId := Int

/-- Type `frame_id_t`: index into the frame array. -/
abbrev FrameId := Nat

def INVALID_PAGE_ID : PageId := -1

/-- Events observable at the boundary of the BPM: disk-manager calls and
lock acquire/release on the BPM latch. -/
inductive Ev where
  | lock : Ev
  | unlock : Ev
  | writePage (pid : PageId) : Ev
  | readPage (pid : PageId) : Ev
  | allocatePage (pid : PageId) : Ev
  | deallocatePage (pid : PageId) : Ev
deriving DecidableEq, Repr

/-- Per-frame metadata of `class Page` (the byte buffer itself carries no
information any claim needs; disk writes are recorded as events). -/
structure Page where
  page_id : PageId
  pin_count : Int
  is_dirty : Bool
deriving DecidableEq, Repr

/-- A `Page` as built by the `Page` default constructor: empty frame. -/
def Page.empty : Page := { page_id := INVALID_PAGE_ID, pin_count := 0, is_dirty := false }

/-- State of `LRUReplacer`: the ordered victim queue (oldest at head),
the membership set, and the capacity `max_pages`. -/
structure LRUReplacer where
  victim_queue : List FrameId
  frame_in_replacer : List FrameId
  max_pages : Nat
deriving DecidableEq, Repr

/-- Model of `LRUReplacer::LRUReplacer(num_pages)`. -/
def LRUReplacer.init (num_pages : Nat) : LRUReplacer :=
  { victim_queue := [], frame_in_replacer := [], max_pages := num_pages }

/-- Model of `LRUReplacer::Victim`: if the queue is empty return false; otherwise
remove the head from queue and set and return it. -/
def LRUReplacer.Victim (r : LRUReplacer) : Option FrameId × LRUReplacer :=
  match r.victim_queue with
  | [] => (none, r)
  | f :: rest =>
      (some f, { r with victim_queue := rest,
                        frame_in_replacer := r.frame_in_replacer.erase f })

/-- Model of `LRUReplacer::Pin`: no-op when the frame is not in the membership set;
otherwise erase the first occurrence from the queue and the set. -/
def LRUReplacer.Pin (r : LRUReplacer) (f : FrameId) : LRUReplacer :=
  if r.frame_in_replacer.contains f then
    if r.victim_queue.contains f then
      { r with victim_queue := r.victim_queue.erase f,
               frame_in_replacer := r.frame_in_replacer.erase f }
    else r
  else r

/-- Model of `LRUReplacer::Unpin`: no-op when already in the set; otherwise, if the
queue is below capacity, insert into the set and append to the queue. -/
def LRUReplacer.Unpin (r : LRUReplacer) (f : FrameId) : LRUReplacer :=
  if r.frame_in_replacer.contains f then r
  else if r.victim_queue.length < r.max_pages then
    { r with frame_in_replacer := f :: r.frame_in_replacer,
             victim_queue := r.victim_queue ++ [f] }
  else r

/-- Model of `LRUReplacer::Size`. -/
def LRUReplacer.size (r : LRUReplacer) : Nat := r.victim_queue.length

/-- The page table: association list with at most one binding per key,
modelling `std::unordered_map<page_id_t, frame_id_t>`. -/
abbrev PageTable := List (PageId × FrameId)

/-- Model of `page_table_.find(pid)`. -/
def ptFind (pt : PageTable) (pid : PageId) : Option FrameId :=
  match pt with
  | [] => none
  | (k, v) :: rest => if k = pid then some v else ptFind rest pid

/-- Model of `page_table_.count(pid) >= 1`. -/
def ptContains (pt : PageTable) (pid : PageId) : Bool :=
  (ptFind pt pid).isSome

/-- Model of `page_table_.erase(pid)`: keys are unique, so filtering out the key
is exact. -/
def ptErase (pt : PageTable) (pid : PageId) : PageTable :=
  pt.filter (fun kv => kv.1 ≠ pid)

/-- Model of `page_table_[pid] = fid` (operator[] assignment): overwrite the
binding if present, otherwise add it. -/
def ptInsert (pt : PageTable) (pid : PageId) (fid : FrameId) : PageTable :=
  match pt with
  | [] => [(pid, fid)]
  | (k, v) :: rest =>
      if k = pid then (k, fid) :: rest else (k, v) :: ptInsert rest pid fid

/-- Reading `page_table_[pid]` (operator[] read): on a miss a
value-initialized entry `pid ↦ 0` is inserted and 0 is returned. -/
def ptGetOrInsertZero (pt : PageTable) (pid : PageId) : FrameId × PageTable :=
  match ptFind pt pid with
  | some fid => (fid, pt)
  | none => (0, pt ++ [(pid, 0)])

/-- State of `BufferPoolManager`: frame array, page table, free list,
replacer, and the disk manager's allocation cursor (`AllocatePage`
returns consecutive fresh ids). -/
structure BPM where
  pool_size : Nat
  pages : List Page
  page_table : PageTable
  free_list : List FrameId
  replacer : LRUReplacer
  next_page_id : PageId
deriving DecidableEq, Repr

/-- Model of `BufferPoolManager::BufferPoolManager`: all frames empty and in the
free list, empty page table and replacer. -/
def BPM.init (pool_size : Nat) : BPM :=
  { pool_size := pool_size
    pages := List.replicate pool_size Page.empty
    page_table := []
    free_list := List.range pool_size
    replacer := LRUReplacer.init pool_size
    next_page_id := 0 }

/-- Model of `pages_[fid]` read. -/
def BPM.frame (b : BPM) (fid : FrameId) : Page := b.pages.getD fid Page.empty

/-- Model of `pages_[fid]` write. -/
def BPM.setFrame (b : BPM) (fid : FrameId) (p : Page) : BPM :=
  { b with pages := b.pages.set fid p }

/-- Result of an operation: its return value, the post state, and the
trace of boundary events in program order. -/
structure OpRes (α : Type) where
  res : α
  st : BPM
  tr : List Ev
deriving Repr

/-- Model of `BufferPoolManager::FetchPageImpl`.  Returns the frame id the
returned `Page*` points at (`&pages_[fid]`), or `none` for `nullptr`.
Note: on the path where the free list is empty and `Victim` fails, the
source returns without unlocking the latch. -/
def FetchPageImpl (b : BPM) (page_id : PageId) : OpRes (Option FrameId) :=
  match ptFind b.page_table page_id with
  | some frameId =>
      let b := { b with replacer := b.replacer.Pin frameId }
      let b := b.setFrame frameId
        { b.frame frameId with pin_count := (b.frame frameId).pin_count + 1 }
      { res := some frameId, st := b, tr := [Ev.lock, Ev.unlock] }
  | none =>
      let picked : Option (FrameId × BPM) :=
        match b.free_list with
        | f :: rest => some (f, { b with free_list := rest })
        | [] =>
            match b.replacer.Victim with
            | (none, _) => none
            | (some f, r) => some (f, { b with replacer := r })
      match picked with
      | none => { res := none, st := b, tr := [Ev.lock] }
      | some (new_frame_id, b) =>
          let old := b.frame new_frame_id
          let wb : List Ev := if old.is_dirty then [Ev.writePage old.page_id] else []
          let pt := ptInsert (ptErase b.page_table old.page_id) page_id new_frame_id
          let b := { b with page_table := pt }
          let b := b.setFrame new_frame_id
            { page_id := page_id, pin_count := 1, is_dirty := false }
          let b := { b with replacer := b.replacer.Pin new_frame_id }
          { res := some new_frame_id, st := b,
            tr := [Ev.lock] ++ wb ++ [Ev.readPage page_id, Ev.unlock] }

/-- Model of `BufferPoolManager::UnpinPageImpl`.  The source reads
`page_table_[page_id]` through operator[], inserting a zero-mapped
entry on a miss; it then assigns `is_dirty` into the frame before the
pin-count check. -/
def UnpinPageImpl (b : BPM) (page_id : PageId) (is_dirty : Bool) : OpRes Bool :=
  let fp := ptGetOrInsertZero b.page_table page_id
  let frame_id := fp.1
  let b := { b with page_table := fp.2 }
  let b := b.setFrame frame_id { b.frame frame_id with is_dirty := is_dirty }
  if (b.frame frame_id).pin_count ≤ 0 then
    { res := false, st := b, tr := [Ev.lock, Ev.unlock] }
  else
    let b := b.setFrame frame_id
      { b.frame frame_id with pin_count := (b.frame frame_id).pin_count - 1 }
    let b :=
      if (b.frame frame_id).pin_count = 0 then
        { b with replacer := b.replacer.Unpin frame_id }
      else b
    { res := true, st := b, tr := [Ev.lock, Ev.unlock] }

/-- Model of `BufferPoolManager::FlushPageImpl`.  Both early `return false` paths
leave the latch locked in the source. -/
def FlushPageImpl (b : BPM) (page_id : PageId) : OpRes Bool :=
  if page_id = INVALID_PAGE_ID then
    { res := false, st := b, tr := [Ev.lock] }
  else
    match ptFind b.page_table page_id with
    | none => { res := false, st := b, tr := [Ev.lock] }
    | some frame_id =>
        let b := b.setFrame frame_id { b.frame frame_id with is_dirty := false }
        { res := true, st := b, tr := [Ev.lock, Ev.writePage page_id, Ev.unlock] }

/-- Model of `BufferPoolManager::NewPageImpl`.  Returns the allocated page id and
frame id, or `none` for `nullptr`.  The source writes the old occupant
back whenever its page id is valid, without consulting the dirty bit. -/
def NewPageImpl (b : BPM) : OpRes (Option (PageId × FrameId)) :=
  let picked : Option (FrameId × BPM) :=
    match b.free_list with
    | f :: rest => some (f, { b with free_list := rest })
    | [] =>
        match b.replacer.Victim with
        | (none, _) => none
        | (some f, r) => some (f, { b with replacer := r })
  match picked with
  | none => { res := none, st := b, tr := [Ev.lock, Ev.unlock] }
  | some (frame_id, b) =>
      let new_pid := b.next_page_id
      let b := { b with next_page_id := b.next_page_id + 1 }
      let old := b.frame frame_id
      let wb : List Ev :=
        if old.page_id ≠ INVALID_PAGE_ID then [Ev.writePage old.page_id] else []
      let b := { b with page_table := ptErase b.page_table old.page_id }
      let b := b.setFrame frame_id
        { page_id := new_pid, pin_count := 1, is_dirty := false }
      let b := { b with replacer := b.replacer.Pin frame_id }
      let b := { b with page_table := ptInsert b.page_table new_pid frame_id }
      { res := some (new_pid, frame_id), st := b,
        tr := [Ev.lock, Ev.allocatePage new_pid] ++ wb ++ [Ev.unlock] }

/-- Model of `BufferPoolManager::DeletePageImpl`.  Note the source never calls
into the replacer here: a deleted evictable frame stays in the
replacer's queue and set. -/
def DeletePageImpl (b : BPM) (page_id : PageId) : OpRes Bool :=
  if ¬ ptContains b.page_table page_id then
    { res := true, st := b, tr := [Ev.lock, Ev.unlock] }
  else
    let fp := ptGetOrInsertZero b.page_table page_id
    let frame_id := fp.1
    let b := { b with page_table := fp.2 }
    if (b.frame frame_id).pin_count > 0 then
      { res := false, st := b, tr := [Ev.lock, Ev.unlock] }
    else
      let b := { b with page_table := ptErase b.page_table page_id }
      let b := { b with free_list := b.free_list ++ [frame_id] }
      let b := b.setFrame frame_id
        { b.frame frame_id with page_id := INVALID_PAGE_ID, is_dirty := false }
      { res := true, st := b,
        tr := [Ev.lock, Ev.deallocatePage page_id, Ev.unlock] }

/-- Model of `BufferPoolManager::FlushAllPagesImpl`: for every frame holding a
valid page id, write it out and clear the dirty bit.  The source takes
no lock here. -/
def FlushAllPagesImpl (b : BPM) : OpRes Unit :=
  let step : OpRes Unit → FrameId → OpRes Unit := fun acc i =>
    let fr := acc.st.frame i
    if fr.page_id = INVALID_PAGE_ID then acc
    else
      { res := ()
        st := acc.st.setFrame i { fr with is_dirty := false }
        tr := acc.tr ++ [Ev.writePage fr.page_id] }
  (List.range b.pool_size).foldl step { res := (), st := b, tr := [] }

/-- Frame `fid` is present in the page table: some entry maps to it. -/
def ptMapsTo (pt : PageTable) (fid : FrameId) : Bool :=
  pt.any (fun kv => kv.2 == fid)

/-- The spec's evictability invariant: a frame is in the replacer's
evictable (membership) set iff it is present in the page table and its
pin count is zero. -/
def evictInv (b : BPM) : Bool :=
  (List.range b.pool_size).all (fun f =>
    b.replacer.frame_in_replacer.contains f ==
      (ptMapsTo b.page_table f && ((b.frame f).pin_count == 0)))

/-- Number of latch acquisitions in a trace. -/
def lockCount (tr : List Ev) : Nat := tr.count Ev.lock

/-- Number of latch releases in a trace. -/
def unlockCount (tr : List Ev) : Nat := tr.count Ev.unlock

/-- A trace is lock-balanced when acquisitions equal releases. -/
def lockBalanced (tr : List Ev) : Bool := lockCount tr == unlockCount tr

/-- Concrete pool of one frame, freshly constructed. -/
def cexInit : BPM := BPM.init 1

/-- After `fetch_page(1)`: page 1 resident in frame 0, pin count 1. -/
def cexFetched : BPM := (FetchPageImpl cexInit 1).st

/-- After `fetch_page(1); unpin_page(1,false)`: page 1 resident, pin
count 0, clean, frame 0 evictable. -/
def cexUnpinned : BPM := (UnpinPageImpl cexFetched 1 false).st

/-- After `fetch_page(1); unpin_page(1,true)`: page 1 resident, pin
count 0, dirty bit set, frame 0 evictable. -/
def cexDirty : BPM := (UnpinPageImpl cexFetched 1 true).st

/-- After `fetch_page(1); unpin_page(1,true); fetch_page(1)`: page 1
resident, pin count 1, dirty bit still set. -/
def cexDirtyPinned : BPM := (FetchPageImpl cexDirty 1).st

/-- A replacer of capacity 2 holding frame 0 in its evictable set. -/
def cexReplacer : LRUReplacer := (LRUReplacer.init 2).Unpin 0

/-- A page-table hit leaves `operator[]` reading without inserting. -/
theorem ptGetOrInsertZero_hit {pt : PageTable} {p : PageId} {fid : FrameId}
    (h : ptFind pt p = some fid) : ptGetOrInsertZero pt p = (fid, pt) := by
  unfold ptGetOrInsertZero
  rw [h]

/-- Erasing a key removes its binding. -/
theorem ptFind_ptErase_self (pt : PageTable) (p : PageId) :
    ptFind (ptErase pt p) p = none := by
  induction pt with
  | nil => rfl
  | cons kv rest ih =>
      obtain ⟨k, v⟩ := kv
      unfold ptErase at ih ⊢
      by_cases hk : k = p
      · simpa [List.filter_cons, hk] using ih
      · simpa [List.filter_cons, hk, ptFind] using ih

/-- Reading a frame just written: in range gives the written page, out
of range leaves the state unchanged entirely. -/
theorem BPM.frame_setFrame_self {b : BPM} {fid : FrameId} (p : Page)
    (h : fid < b.pages.length) : (b.setFrame fid p).frame fid = p := by
  unfold BPM.setFrame BPM.frame
  simp [List.getD, List.getElem?_set_self, h]

/-- Writing out of range is a no-op on the whole state. -/
theorem BPM.setFrame_oob {b : BPM} {fid : FrameId} (p : Page)
    (h : b.pages.length ≤ fid) : b.setFrame fid p = b := by
  unfold BPM.setFrame
  rw [List.set_eq_of_length_le h]

/-- Out-of-range frame reads give the default (empty) page. -/
theorem BPM.frame_oob {b : BPM} {fid : FrameId}
    (h : b.pages.length ≤ fid) : b.frame fid = Page.empty := by
  unfold BPM.frame
  rw [List.getD_eq_getElem?_getD, List.getElem?_eq_none h]
  rfl

/-- Claim C1 (counterexample): the evictability invariant ("a frame is
in the replacer's evictable set iff it is in the page table with pin
count zero") holds in the reachable state reached by
`fetch_page(1); unpin_page(1,false)` on a one-frame pool, but is false
after the further public operation `delete_page(1)`: the deleted frame
stays in the replacer's set although its page-table entry is gone. -/
theorem C1_evict_invariant_broken_by_delete :
    evictInv cexUnpinned = true ∧
    (DeletePageImpl cexUnpinned 1).res = true ∧
    evictInv (DeletePageImpl cexUnpinned 1).st = false := by
  decide

/-- Claim C1 (amended): `delete_page` never updates the replacer, so
deleting a resident page with pin count zero leaves the frame in the
replacer's evictable set while removing it from the page table; the
evictability invariant therefore does not survive `delete_page`,
though the other operations do not get it broken this way. -/
theorem C1_delete_leaves_replacer_unchanged (b : BPM) (p : PageId) :
    (DeletePageImpl b p).st.replacer = b.replacer := by
  unfold DeletePageImpl
  dsimp only
  split
  · rfl
  · split
    · rfl
    · rfl

/-- Claim C2: in the state reached by `fetch_page(1); unpin_page(1,false)`
on a one-frame pool, the sole frame holds page 1 with a clear dirty
bit, yet `new_page` issues `write_page(1)` for the old occupant: the
write-back in `new_page` is unconditional, not gated on the dirty
bit. -/
theorem C2_newpage_writes_back_clean_page :
    (cexUnpinned.frame 0).is_dirty = false ∧
    (cexUnpinned.frame 0).page_id = 1 ∧
    Ev.writePage 1 ∈ (NewPageImpl cexUnpinned).tr := by
  decide

/-- Claim C3 (counterexample): in the state reached by
`fetch_page(1); unpin_page(1,false)` on a one-frame pool, page 1 is
resident with pin count zero and frame 0 is present in the replacer;
`delete_page(1)` returns true but does NOT remove frame 0 from the
replacer, contradicting the claim's "removes the frame from the
replacer if present". -/
theorem C3_delete_keeps_frame_in_replacer :
    ptFind cexUnpinned.page_table 1 = some 0 ∧
    (cexUnpinned.frame 0).pin_count = 0 ∧
    cexUnpinned.replacer.frame_in_replacer.contains 0 = true ∧
    (DeletePageImpl cexUnpinned 1).res = true ∧
    (DeletePageImpl cexUnpinned 1).st.replacer.frame_in_replacer.contains 0 = true := by
  decide

/-- Claim C4: with frame 0 pinned (state after `fetch_page(1)` on a
one-frame pool) and page 7 absent from the page table,
`unpin_page(7,false)` inserts a phantom entry `7 ↦ 0`, decrements the
unrelated frame 0's pin count, and returns true — not the claimed
false-and-unchanged. -/
theorem C4_unpin_nonresident_phantom_insert :
    ptFind cexFetched.page_table 7 = none ∧
    (UnpinPageImpl cexFetched 7 false).res = true ∧
    ptFind (UnpinPageImpl cexFetched 7 false).st.page_table 7 = some 0 ∧
    ((UnpinPageImpl cexFetched 7 false).st.frame 0).pin_count = 0 := by
  decide

/-- Claim C5 (counterexample): page 1 is resident with its dirty bit
set (state after `fetch_page(1); unpin_page(1,true); fetch_page(1)`),
yet `unpin_page(1,false)` leaves the dirty bit false: the source
assigns `is_dirty` instead of OR-ing it, so a reader's unpin clears a
previously set dirty bit. -/
theorem C5_unpin_false_clears_dirty :
    (cexDirtyPinned.frame 0).is_dirty = true ∧
    ptFind cexDirtyPinned.page_table 1 = some 0 ∧
    ((UnpinPageImpl cexDirtyPinned 1 false).st.frame 0).is_dirty = false := by
  decide

/-- Claim C6 (counterexample): page 1 is resident with pin count zero
and dirty bit set (state after `fetch_page(1); unpin_page(1,true)`);
`unpin_page(1,false)` returns false as claimed but does change the
state: the dirty bit is overwritten to false before the pin-count
check. -/
theorem C6_unpin_zero_pin_changes_dirty :
    ptFind cexDirty.page_table 1 = some 0 ∧
    (cexDirty.frame 0).pin_count = 0 ∧
    (cexDirty.frame 0).is_dirty = true ∧
    (UnpinPageImpl cexDirty 1 false).res = false ∧
    ((UnpinPageImpl cexDirty 1 false).st.frame 0).is_dirty = false := by
  decide

/-- Claim C7: two exit paths return with the latch still held: a
`flush_page(INVALID_PAGE_ID)` call and a `fetch_page` miss with the
free list empty and no evictable frame both produce a trace with one
lock acquisition and no release. -/
theorem C7_lock_leaked_on_early_returns :
    (FlushPageImpl cexInit (-1)).tr = [Ev.lock] ∧
    lockBalanced (FlushPageImpl cexInit (-1)).tr = false ∧
    (FetchPageImpl cexFetched 2).tr = [Ev.lock] ∧
    lockBalanced (FetchPageImpl cexFetched 2).tr = false := by
  decide

/-- Claim C9: `LRUReplacer::Unpin` is idempotent — if the frame is
already in the membership set, the whole replacer state (queue, set
and capacity) is unchanged. -/
theorem C9_unpin_idempotent (r : LRUReplacer) (f : FrameId)
    (h : r.frame_in_replacer.contains f = true) :
    r.Unpin f = r := by
  unfold LRUReplacer.Unpin
  exact if_pos h

/-- Claim C9 witness: a concrete replacer with frame 0 in the set. -/
theorem C9_unpin_idempotent_witness :
    cexReplacer.frame_in_replacer.contains 0 = true ∧
    cexReplacer.Unpin 0 = cexReplacer :=
  ⟨by decide, C9_unpin_idempotent cexReplacer 0 (by decide)⟩

/-- Claim C10: deleting a page that is not in the page table returns
true, leaves the whole state unchanged, and issues no disk-manager
call at all (in particular no `deallocate_page`): the trace is just
lock and unlock. -/
theorem C10_delete_nonresident_noop (b : BPM) (p : PageId)
    (h : ptFind b.page_table p = none) :
    (DeletePageImpl b p).res = true ∧
    (DeletePageImpl b p).st = b ∧
    (DeletePageImpl b p).tr = [Ev.lock, Ev.unlock] := by
  unfold DeletePageImpl ptContains
  simp [h]

/-- Claim C10 witness: page 3 is absent from a fresh one-frame pool. -/
theorem C10_delete_nonresident_noop_witness :
    ptFind cexInit.page_table 3 = none ∧
    ((DeletePageImpl cexInit 3).res = true ∧
     (DeletePageImpl cexInit 3).st = cexInit ∧
     (DeletePageImpl cexInit 3).tr = [Ev.lock, Ev.unlock]) :=
  ⟨by decide, C10_delete_nonresident_noop cexInit 3 (by decide)⟩

/-- Claim C3 (amended): deleting a resident page whose frame (a frame
of the pool) has pin count zero deallocates the page on disk, removes
the page-table entry, resets the frame's metadata, appends the frame to
the free list and returns true — but it leaves the replacer entirely
unchanged instead of removing the frame from it. -/
theorem C3_delete_resident_unpinned (b : BPM) (p : PageId) (fid : FrameId)
    (hfind : ptFind b.page_table p = some fid)
    (hpin : (b.frame fid).pin_count = 0)
    (hlt : fid < b.pages.length) :
    (DeletePageImpl b p).res = true ∧
    (DeletePageImpl b p).tr = [Ev.lock, Ev.deallocatePage p, Ev.unlock] ∧
    ptFind (DeletePageImpl b p).st.page_table p = none ∧
    ((DeletePageImpl b p).st.frame fid).page_id = INVALID_PAGE_ID ∧
    ((DeletePageImpl b p).st.frame fid).is_dirty = false ∧
    ((DeletePageImpl b p).st.frame fid).pin_count = 0 ∧
    (DeletePageImpl b p).st.free_list = b.free_list ++ [fid] ∧
    (DeletePageImpl b p).st.replacer = b.replacer := by
  obtain ⟨ps, pages, pt, fl, rep, npid⟩ := b
  simp only [BPM.frame, List.getD_eq_getElem?_getD] at hpin hlt ⊢
  simp only at hfind
  have hcontains : ptContains pt p = true := by
    unfold ptContains
    rw [hfind]
    rfl
  have hget : ptGetOrInsertZero pt p = (fid, pt) := ptGetOrInsertZero_hit hfind
  have hpin0 : (pages[fid]).pin_count = 0 := by
    simpa [List.getElem?_eq_getElem hlt] using hpin
  unfold DeletePageImpl
  simp [hcontains, hget, BPM.setFrame, BPM.frame, hpin0, hlt, ptFind_ptErase_self]

/-- Claim C3 witness: `fetch_page(1); unpin_page(1,false)` on a
one-frame pool makes page 1 resident in frame 0 with pin count 0. -/
theorem C3_delete_resident_unpinned_witness :
    (ptFind cexUnpinned.page_table 1 = some 0 ∧
     (cexUnpinned.frame 0).pin_count = 0 ∧
     0 < cexUnpinned.pages.length) ∧
    ((DeletePageImpl cexUnpinned 1).res = true ∧
     (DeletePageImpl cexUnpinned 1).tr = [Ev.lock, Ev.deallocatePage 1, Ev.unlock] ∧
     ptFind (DeletePageImpl cexUnpinned 1).st.page_table 1 = none ∧
     ((DeletePageImpl cexUnpinned 1).st.frame 0).page_id = INVALID_PAGE_ID ∧
     ((DeletePageImpl cexUnpinned 1).st.frame 0).is_dirty = false ∧
     ((DeletePageImpl cexUnpinned 1).st.frame 0).pin_count = 0 ∧
     (DeletePageImpl cexUnpinned 1).st.free_list = cexUnpinned.free_list ++ [0] ∧
     (DeletePageImpl cexUnpinned 1).st.replacer = cexUnpinned.replacer) :=
  ⟨⟨by decide, by decide, by decide⟩,
    C3_delete_resident_unpinned cexUnpinned 1 0 (by decide) (by decide) (by decide)⟩

/-- Claim C5 (amended): for a resident page (mapped to a frame of the
pool), `unpin_page(page_id, is_dirty)` sets the frame's dirty bit to
exactly the `is_dirty` argument — a plain assignment, not an OR — so a
call with `is_dirty = false` clears a previously set dirty bit. -/
theorem C5_unpin_assigns_dirty (b : BPM) (p : PageId) (d : Bool) (fid : FrameId)
    (hfind : ptFind b.page_table p = some fid)
    (hlt : fid < b.pages.length) :
    ((UnpinPageImpl b p d).st.frame fid).is_dirty = d := by
  obtain ⟨ps, pages, pt, fl, rep, npid⟩ := b
  simp only at hfind hlt
  have hget : ptGetOrInsertZero pt p = (fid, pt) := ptGetOrInsertZero_hit hfind
  unfold UnpinPageImpl
  simp only [hget, BPM.setFrame, BPM.frame]
  split
  · simp [hlt]
  · split <;> simp [hlt]

/-- Claim C5 witness: page 1 resident and dirty in frame 0 of a
one-frame pool; unpinning with `is_dirty = false` leaves the dirty bit
false. -/
theorem C5_unpin_assigns_dirty_witness :
    (ptFind cexDirtyPinned.page_table 1 = some 0 ∧
     0 < cexDirtyPinned.pages.length) ∧
    ((UnpinPageImpl cexDirtyPinned 1 false).st.frame 0).is_dirty = false :=
  ⟨⟨by decide, by decide⟩,
    C5_unpin_assigns_dirty cexDirtyPinned 1 false 0 (by decide) (by decide)⟩

/-- Claim C6 (amended): for a resident page (mapped to a frame of the
pool) whose pin count is zero, `unpin_page` returns false and leaves
the pin count, page table, free list and replacer unchanged, but it
does change state: the frame's dirty bit is overwritten with the
`is_dirty` argument before the pin-count check. -/
theorem C6_unpin_zero_pin_rejected (b : BPM) (p : PageId) (d : Bool) (fid : FrameId)
    (hfind : ptFind b.page_table p = some fid)
    (hpin : (b.frame fid).pin_count = 0)
    (hlt : fid < b.pages.length) :
    (UnpinPageImpl b p d).res = false ∧
    (UnpinPageImpl b p d).st.page_table = b.page_table ∧
    (UnpinPageImpl b p d).st.free_list = b.free_list ∧
    (UnpinPageImpl b p d).st.replacer = b.replacer ∧
    (UnpinPageImpl b p d).st.pages = b.pages.set fid { b.frame fid with is_dirty := d } ∧
    ((UnpinPageImpl b p d).st.frame fid).pin_count = 0 := by
  obtain ⟨ps, pages, pt, fl, rep, npid⟩ := b
  simp only [BPM.frame, List.getD_eq_getElem?_getD] at hpin hlt ⊢
  simp only at hfind
  have hget : ptGetOrInsertZero pt p = (fid, pt) := ptGetOrInsertZero_hit hfind
  have hpin0 : (pages[fid]).pin_count = 0 := by
    simpa [List.getElem?_eq_getElem hlt] using hpin
  unfold UnpinPageImpl
  simp [hget, BPM.setFrame, BPM.frame, hpin0, hlt]

/-- Claim C6 witness: page 1 resident in frame 0 with pin count 0 and
dirty bit set; `unpin_page(1,false)` is rejected but rewrites the
dirty bit. -/
theorem C6_unpin_zero_pin_rejected_witness :
    (ptFind cexDirty.page_table 1 = some 0 ∧
     (cexDirty.frame 0).pin_count = 0 ∧
     0 < cexDirty.pages.length) ∧
    ((UnpinPageImpl cexDirty 1 false).res = false ∧
     (UnpinPageImpl cexDirty 1 false).st.page_table = cexDirty.page_table ∧
     (UnpinPageImpl cexDirty 1 false).st.free_list = cexDirty.free_list ∧
     (UnpinPageImpl cexDirty 1 false).st.replacer = cexDirty.replacer ∧
     (UnpinPageImpl cexDirty 1 false).st.pages =
       cexDirty.pages.set 0 { cexDirty.frame 0 with is_dirty := false } ∧
     ((UnpinPageImpl cexDirty 1 false).st.frame 0).pin_count = 0) :=
  ⟨⟨by decide, by decide, by decide⟩,
    C6_unpin_zero_pin_rejected cexDirty 1 false 0 (by decide) (by decide) (by decide)⟩

/-- Claim C8: `fetch_page` returns null exactly when the page is not
resident, the free list is empty, and the replacer's victim queue is
empty; in every other case it returns a frame. -/
theorem C8_fetch_none_iff (b : BPM) (p : PageId) :
    (FetchPageImpl b p).res = none ↔
      ptFind b.page_table p = none ∧ b.free_list = [] ∧
        b.replacer.victim_queue = [] := by
  obtain ⟨ps, pages, pt, fl, rep, npid⟩ := b
  obtain ⟨vq, fir, mp⟩ := rep
  unfold FetchPageImpl LRUReplacer.Victim
  cases hf : ptFind pt p <;> cases fl <;> cases vq <;> simp_all

end BPMModel
